import Mathlib

/-!
Verification of the operation-processing and durability subsystem of the
neptune-client repository, together with two helper facts from the
caller-facing API (`Project._as_list`) and the constants module.

The repository sources available here contain the constants module, the
`Project` metadata container and the unit tests of the offline operation
processor and of the management API.  The durability core itself
(`DiskQueue`, `MetadataFile`, `OperationStorage`,
`OfflineOperationProcessor`, the management api module) is not among the
source files, so those components are modelled from the specification's
component contracts (spec sections 3, 4.1 - 4.5) and from the behaviour
their unit tests pin down; each such definition carries a doc comment
starting with `Modelled from the spec:`.
-/

namespace Neptune

/-! ## Container identity (spec section 3) -/

/-- Container type discriminator, as in `neptune.internal.container_type`. -/
inductive ContainerType
  | run
  | project
  | model
deriving DecidableEq, Repr

/-! ## Operations and their serialized form -/

/-- Modelled from the spec: `Operation` is "an immutable record of one
mutation intent - a target path (ordered sequence of path segments), an
operation kind (assign, append to series, add/remove tag, delete,
upload-file reference), and a kind-specific payload" (spec section 3), a
tagged-variant type with a kind discriminator (spec section 9).  The
concrete operation classes live in `neptune/internal/operation.py`, which
is not among the sources. -/
inductive Operation
  | assign (path : List String) (value : String)
  | logValues (path : List String) (values : List String)
  | addStrings (path : List String) (tags : List String)
  | removeStrings (path : List String) (tags : List String)
  | deleteAttribute (path : List String)
  | uploadFile (path : List String) (filePath : String)
deriving DecidableEq, Repr

/-- Modelled from the spec: the "compact binary/text form" an Operation is
serialized to for durability (spec section 3) - a kind discriminator, the
target path, and a flat payload, mirroring the dict form produced by the
queue serializer. -/
structure OpRecord where
  kind : String
  path : List String
  payload : List String
deriving DecidableEq, Repr

/-- Modelled from the spec: the queue serializer (`to_dict` direction). -/
def Operation.toRecord : Operation → OpRecord
  | .assign p v => ⟨"Assign", p, [v]⟩
  | .logValues p vs => ⟨"Log", p, vs⟩
  | .addStrings p ts => ⟨"AddStrings", p, ts⟩
  | .removeStrings p ts => ⟨"RemoveStrings", p, ts⟩
  | .deleteAttribute p => ⟨"DeleteAttribute", p, []⟩
  | .uploadFile p f => ⟨"UploadFile", p, [f]⟩

/-- Modelled from the spec: the queue deserializer (`from_dict` direction);
a record that matches no supported kind is a corrupted entry and yields
`none` (spec section 7, `CorruptedQueueEntry`). -/
def Operation.fromRecord (r : OpRecord) : Option Operation :=
  match r.kind, r.payload with
  | "Assign", [v] => some (.assign r.path v)
  | "Log", vs => some (.logValues r.path vs)
  | "AddStrings", ts => some (.addStrings r.path ts)
  | "RemoveStrings", ts => some (.removeStrings r.path ts)
  | "DeleteAttribute", [] => some (.deleteAttribute r.path)
  | "UploadFile", [f] => some (.uploadFile r.path f)
  | _, _ => none

/-! ## Constants module (`src/neptune/alpha/constants.py`) -/

/-- `NEPTUNE_EXPERIMENT_DIRECTORY` from `neptune/alpha/constants.py`. -/
def NEPTUNE_EXPERIMENT_DIRECTORY : String := ".neptune"

/-- `OFFLINE_DIRECTORY` from `neptune/alpha/constants.py`. -/
def OFFLINE_DIRECTORY : String := "offline"

/-- `OFFLINE_NAME_PREFIX` from `neptune/alpha/constants.py`. -/
def OFFLINE_NAME_PREFIX : String := "offline/"

/-- `OPERATIONS_DISK_QUEUE_PREFIX` from `neptune/alpha/constants.py`. -/
def OPERATIONS_DISK_QUEUE_PREFIX : String := "operations"

/-! ## Durable Queue (spec section 4.1, `DiskQueue`) -/

/-- Modelled from the spec: a `QueueEntry` is "an Operation plus a
monotonically increasing sequence number (assigned at enqueue time)"
(spec section 3); entries are stored on disk in serialized form. -/
structure QueueEntry where
  seq : Nat
  record : OpRecord
deriving DecidableEq, Repr

/-- Modelled from the spec: the Durable Queue (`DiskQueue`) "owns an
ordered, disk-resident sequence of QueueEntries; exposes the queue's
low-water mark (last acknowledged sequence) and high-water mark (last
appended sequence)" (spec section 3).  `filesPresent` records whether the
on-disk files still exist (they are removed by `cleanup_if_empty`). -/
structure DiskQueue where
  logEntries : List QueueEntry
  ackMark : Nat
  appendMark : Nat
  filesPresent : Bool
deriving DecidableEq, Repr

/-- A freshly created on-disk queue: no entries, both marks at zero. -/
def DiskQueue.empty : DiskQueue :=
  { logEntries := [], ackMark := 0, appendMark := 0, filesPresent := true }

/-- Modelled from the spec: `append(operation) -> sequence_number`
"serializes the operation, appends to the on-disk log, returns its
assigned sequence number" (spec section 4.1). -/
def DiskQueue.put (q : DiskQueue) (op : Operation) : DiskQueue × Nat :=
  let seq := q.appendMark + 1
  ({ q with logEntries := q.logEntries ++ [⟨seq, op.toRecord⟩], appendMark := seq }, seq)

/-- Modelled from the spec: `ack(sequence_number)` "records that all
entries up to and including this sequence have been durably accepted by
the backend; must be monotonic - attempting to ack a sequence lower than
the current ack-mark is a no-op, not an error" (spec section 4.1). -/
def DiskQueue.ack (q : DiskQueue) (s : Nat) : DiskQueue :=
  if s ≤ q.ackMark then q else { q with ackMark := s }

/-- The entries not yet acknowledged, in sequence order. -/
def DiskQueue.pendingEntries (q : DiskQueue) : List QueueEntry :=
  q.logEntries.filter (fun e => q.ackMark < e.seq)

/-- Modelled from the spec: `cleanup_if_empty()` "deletes on-disk files
only if ack-mark equals append-mark (queue fully drained); otherwise a
no-op, preventing loss of unsynced data" (spec section 4.1). -/
def DiskQueue.cleanupIfEmpty (q : DiskQueue) : DiskQueue :=
  if q.ackMark = q.appendMark then
    { q with logEntries := [], filesPresent := false }
  else q

/-! ## Metadata File and Operation Storage (spec sections 4.2, 4.3) -/

/-- Modelled from the spec: the metadata record "{container id, container
type, mode (online/offline/debug/read-only), creation timestamp} - written
exactly once per container lifetime" (spec section 3).  The unit test
`test_metadata` pins the field values the offline processor writes. -/
structure MetadataRecord where
  containerId : String
  containerType : ContainerType
  mode : String
deriving DecidableEq, Repr

/-- Modelled from the spec: the `MetadataFile` component (spec section
4.2): it persists one metadata record, holds an open handle, and its
backing file can be deleted by `cleanup`. -/
structure MetadataFile where
  record : Option MetadataRecord
  handleOpen : Bool
  filePresent : Bool
deriving DecidableEq, Repr

/-- Modelled from the spec: the `OperationStorage` component, "a
directory-scoped area holding large/blob payloads" (spec section 3) whose
directory is removed only by its cleanup. -/
structure OperationStorage where
  dirPresent : Bool
deriving DecidableEq, Repr

/-! ## Operation Processor (spec sections 4.4, 4.5) -/

/-- Externally visible side effects of the processor and of the Background
Sync Job: invocations of the backend client, sync-job lifecycle, handle
closing and on-disk cleanup. -/
inductive Effect
  | backendSubmit (containerId : String) (records : List OpRecord)
  | startSyncJob
  | closeQueueHandle
  | closeMetadataHandle
  | cleanupQueue
  | cleanupStorage
  | cleanupMetadata
deriving DecidableEq, Repr

/-- Mode of an operation processor (spec section 4.4). -/
inductive ProcMode
  | online
  | offline
deriving DecidableEq, Repr

/-- Processor lifecycle states `CREATED -> STARTED -> (STOPPING) -> CLOSED`
(spec section 4.4). -/
inductive ProcState
  | created
  | started
  | stopping
  | closed
deriving DecidableEq, Repr

/-- Modelled from the spec: the Operation Processor coordinator, which
"exclusively owns one Durable Queue, one Metadata File, and one Operation
Storage instance per container" (spec section 3) and runs the state
machine of spec section 4.4. -/
structure OperationProcessor where
  mode : ProcMode
  procState : ProcState
  containerId : String
  containerType : ContainerType
  queue : DiskQueue
  metadataFile : MetadataFile
  storage : OperationStorage
  syncJobActive : Bool
deriving DecidableEq, Repr

/-- Modelled from the spec: construction of `OfflineOperationProcessor`
for a container.  Per the unit test `test_metadata`, constructing the
processor writes the metadata record with mode `"offline"` and the given
container id and type; the queue is created empty and no sync job runs. -/
def OfflineOperationProcessor.init (cid : String) (ct : ContainerType) :
    OperationProcessor :=
  { mode := ProcMode.offline
    procState := ProcState.created
    containerId := cid
    containerType := ct
    queue := DiskQueue.empty
    metadataFile :=
      { record := some { containerId := cid, containerType := ct, mode := "offline" }
        handleOpen := true
        filePresent := true }
    storage := { dirPresent := true }
    syncJobActive := false }

/-- Modelled from the spec: a later online-mode open of the same on-disk
queue (spec section 4.4: a separate "resume/upload offline data" pass
"opens the same on-disk queue under online mode and drains it"). -/
def onlineReopen (cid : String) (ct : ContainerType) (q : DiskQueue) :
    OperationProcessor :=
  { mode := ProcMode.online
    procState := ProcState.created
    containerId := cid
    containerType := ct
    queue := q
    metadataFile :=
      { record := some { containerId := cid, containerType := ct, mode := "async" }
        handleOpen := true
        filePresent := true }
    storage := { dirPresent := true }
    syncJobActive := false }

/-- Modelled from the spec: `start()` "opens/creates the Durable Queue,
Metadata File, Operation Storage for the container; in online mode, also
starts the Background Sync Job.  Transition CREATED -> STARTED; starting
twice is a no-op" (spec section 4.4). -/
def OperationProcessor.start (p : OperationProcessor) :
    OperationProcessor × List Effect :=
  if p.procState = ProcState.created then
    match p.mode with
    | ProcMode.online =>
        ({ p with procState := ProcState.started, syncJobActive := true },
         [Effect.startSyncJob])
    | ProcMode.offline =>
        ({ p with procState := ProcState.started }, [])
  else (p, [])

/-- Modelled from the spec: `stop(seconds)` "signals the Background Sync
Job to finish in-flight work and halt ... (entries remain durably queued
regardless).  Transition STARTED -> STOPPING -> CLOSED-eligible" (spec
section 4.4); per the unit test `test_cleanup`, no cleanup is invoked. -/
def OperationProcessor.stop (p : OperationProcessor) :
    OperationProcessor × List Effect :=
  if p.procState = ProcState.started then
    ({ p with procState := ProcState.stopping, syncJobActive := false }, [])
  else (p, [])

/-- Modelled from the spec: `close()` "stops if not already stopped,
closes Metadata File and Durable Queue handles, and - only if the queue
and storage are fully drained - invokes their cleanup to reclaim disk
space.  Idempotent; closing twice is a no-op" (spec section 4.4). -/
def OperationProcessor.close (p : OperationProcessor) :
    OperationProcessor × List Effect :=
  if p.procState = ProcState.closed then (p, [])
  else
    let drained := p.queue.ackMark = p.queue.appendMark
    ({ p with
        procState := ProcState.closed
        syncJobActive := false
        queue := p.queue.cleanupIfEmpty
        metadataFile :=
          { record := p.metadataFile.record
            handleOpen := false
            filePresent := p.metadataFile.filePresent && !(decide drained) }
        storage := { dirPresent := p.storage.dirPresent && !(decide drained) } },
     [Effect.closeQueueHandle, Effect.closeMetadataHandle]
       ++ (if drained then
             [Effect.cleanupQueue, Effect.cleanupStorage, Effect.cleanupMetadata]
           else []))

/-- The caller-visible commands of the processor API (spec section 4.4)
plus `tick`, one scheduler tick of the Background Sync Job (spec section
4.5, made explicitly tickable per spec section 9). -/
inductive Command
  | start
  | enqueue (op : Operation)
  | flush
  | wait
  | stop
  | close
  | tick
deriving DecidableEq, Repr

/-- Modelled from the spec: one step of the coordinator.  `enqueue`
appends to the Durable Queue in STARTED state only (outside it the call
fails with `InactiveContainer` and changes nothing); `flush` and `wait`
only interact with the sync job and never touch the backend themselves;
`tick` runs one successful drain pass of the Background Sync Job when one
is active: it takes the pending batch, submits it to the backend client in
sequence order, and acks the highest confirmed sequence (spec section
4.5). -/
def OperationProcessor.step (p : OperationProcessor) :
    Command → OperationProcessor × List Effect
  | Command.start => p.start
  | Command.enqueue op =>
      if p.procState = ProcState.started then
        ({ p with queue := (p.queue.put op).1 }, [])
      else (p, [])
  | Command.flush => (p, [])
  | Command.wait => (p, [])
  | Command.stop => p.stop
  | Command.close => p.close
  | Command.tick =>
      if p.syncJobActive then
        match p.queue.pendingEntries with
        | [] => (p, [])
        | entries =>
            ({ p with queue := p.queue.ack p.queue.appendMark },
             [Effect.backendSubmit p.containerId (entries.map QueueEntry.record)])
      else (p, [])

/-- Run a sequence of commands, collecting the emitted effects in order. -/
def OperationProcessor.run (p : OperationProcessor) :
    List Command → OperationProcessor × List Effect
  | [] => (p, [])
  | c :: cs =>
      let (p1, es) := p.step c
      let (p2, es2) := p1.run cs
      (p2, es ++ es2)

/-- The queue entries produced by appending a list of operations to a
queue whose append-mark is `n`: sequence numbers `n+1, n+2, ...` paired
with the serialized operations, in input order. -/
def numberFrom (n : Nat) : List Operation → List QueueEntry
  | [] => []
  | op :: rest => ⟨n + 1, op.toRecord⟩ :: numberFrom (n + 1) rest

/-! ## `Project._as_list` (`src/neptune/new/metadata_containers/project.py`) -/

/-- A Python value as seen by the argument checks of
`Project.fetch_runs_table`: `None`, a string, an iterable holding further
values, or a value of some other non-iterable, non-string type (modelled
by an integer). -/
inductive PyValue
  | vNone
  | vStr (s : String)
  | vIter (xs : List PyValue)
  | vInt (n : Int)
deriving Repr

/-- Python `isinstance(value, str)`. -/
def PyValue.isStr : PyValue → Bool
  | .vStr _ => true
  | _ => false

/-- Python `isinstance(value, type(None))`. -/
def PyValue.isNoneVal : PyValue → Bool
  | .vNone => true
  | _ => false

/-- Python `isinstance(value, Iterable)`: strings and containers are
iterable, `None` and numbers are not. -/
def PyValue.isIterable : PyValue → Bool
  | .vStr _ => true
  | .vIter _ => true
  | _ => false

/-- Whether a value is a (non-string) iterable all of whose elements are
strings. -/
def PyValue.isIterOfStr : PyValue → Bool
  | .vIter xs => xs.all PyValue.isStr
  | _ => false

/-- Modelled from the spec: `verify_type(var_name, var, expected_types)`
from `neptune.new.internal.utils` (the utils module is not among the
sources), instantiated at the expected-type tuple
`(type(None), str, Iterable)` used by `Project._as_list`: it raises
`TypeError` unless the value is an instance of one of the expected
types. -/
def verify_type_none_str_iterable (name : String) (value : PyValue) :
    Except String Unit :=
  if value.isNoneVal || value.isStr || value.isIterable then Except.ok ()
  else Except.error ("TypeError: " ++ name)

/-- Modelled from the spec: `verify_collection_type(var_name, var, str)`
from `neptune.new.internal.utils`: it raises `TypeError` unless the value
is a collection all of whose elements are strings. -/
def verify_collection_type_str (name : String) (value : PyValue) :
    Except String Unit :=
  match value with
  | PyValue.vIter xs =>
      if xs.all PyValue.isStr then Except.ok ()
      else Except.error ("TypeError: elements of " ++ name)
  | _ => Except.error ("TypeError: " ++ name)

/-- `Project._as_list` from
`src/neptune/new/metadata_containers/project.py` lines 149-159: verify
the argument's type against `(type(None), str, Iterable)`, map `None` to
`None` and a string to the one-element list holding it, and return an
iterable unchanged after verifying its elements are strings. -/
def _as_list (name : String) (value : PyValue) :
    Except String (Option PyValue) :=
  match verify_type_none_str_iterable name value with
  | Except.error e => Except.error e
  | Except.ok _ =>
      match value with
      | PyValue.vNone => Except.ok Option.none
      | PyValue.vStr s => Except.ok (some (PyValue.vIter [PyValue.vStr s]))
      | v =>
          match verify_collection_type_str name v with
          | Except.error e => Except.error e
          | Except.ok _ => Except.ok (some v)

/-! ## Management api: `trash_objects`, `delete_objects_from_trash` -/

/-- One invocation of the backend leaderboard client, as the management
api unit tests capture it: an endpoint name, the project identifier, and
the qualified experiment identifiers passed in that single call. -/
structure LeaderboardCall where
  endpoint : String
  projectIdentifier : String
  experimentIdentifiers : List String
deriving DecidableEq, Repr

/-- Modelled from the spec: `trash_objects(project, ids)` from
`neptune/management/internal/api.py` (not among the sources); per its
unit test `test_project_trash_objects`, it issues exactly one
`trashExperiments` call carrying the project identifier and every object
id prefixed with `"<project>/"`, in input order. -/
def trash_objects (project : String) (ids : List String) :
    List LeaderboardCall :=
  [{ endpoint := "trashExperiments"
     projectIdentifier := project
     experimentIdentifiers := ids.map (fun i => project ++ "/" ++ i) }]

/-- Modelled from the spec: `delete_objects_from_trash(project, ids)`
from `neptune/management/internal/api.py` (not among the sources); per
its unit test `test_project_delete_objects_from_trash`, it issues exactly
one `deleteExperiments` call with the same argument shape as
`trash_objects`. -/
def delete_objects_from_trash (project : String) (ids : List String) :
    List LeaderboardCall :=
  [{ endpoint := "deleteExperiments"
     projectIdentifier := project
     experimentIdentifiers := ids.map (fun i => project ++ "/" ++ i) }]

end Neptune

namespace Neptune

/-- C7: For every supported operation kind and every Operation of that
kind, deserializing the serialization of the Operation yields an Operation
equal to the original (round-trip identity of the queue's serializer). -/
theorem operation_serialization_round_trip (op : Operation) :
    Operation.fromRecord (Operation.toRecord op) = some op := by
  cases op <;> rfl

/-- C10: The offline name prefix constant equals the offline directory name
followed by a single path separator, so every offline container name formed
with the prefix resolves under the offline directory. -/
theorem offline_name_prefix_spec :
    OFFLINE_NAME_PREFIX = OFFLINE_DIRECTORY ++ "/"
    ∧ ∀ name : String, ∃ rest : String,
        OFFLINE_NAME_PREFIX ++ name = (OFFLINE_DIRECTORY ++ "/") ++ rest := by
  refine ⟨rfl, fun name => ⟨name, rfl⟩⟩

/-- C2: For every state of the Durable Queue, `cleanup_if_empty` deletes
the on-disk files if and only if the ack-mark equals the append-mark;
whenever ack-mark < append-mark it is a no-op leaving all on-disk state
unchanged. -/
theorem cleanup_if_empty_spec (q : DiskQueue) (hfiles : q.filesPresent = true) :
    ((q.cleanupIfEmpty).filesPresent = false ↔ q.ackMark = q.appendMark)
    ∧ (q.ackMark < q.appendMark → q.cleanupIfEmpty = q) := by
  constructor
  · by_cases h : q.ackMark = q.appendMark
    · simp [DiskQueue.cleanupIfEmpty, h]
    · simp [DiskQueue.cleanupIfEmpty, h, hfiles]
  · intro hlt
    have h : ¬ q.ackMark = q.appendMark := Nat.ne_of_lt hlt
    simp [DiskQueue.cleanupIfEmpty, h]

/-- Witness for C2: on a queue holding one unacknowledged entry the
cleanup is a no-op, and on a fully drained queue it removes the files. -/
theorem cleanup_if_empty_spec_witness :
    (DiskQueue.cleanupIfEmpty
        { logEntries := [⟨1, ⟨"Assign", ["a"], ["v"]⟩⟩], ackMark := 0,
          appendMark := 1, filesPresent := true }
      = { logEntries := [⟨1, ⟨"Assign", ["a"], ["v"]⟩⟩], ackMark := 0,
          appendMark := 1, filesPresent := true })
    ∧ ((DiskQueue.cleanupIfEmpty
        { logEntries := [], ackMark := 1, appendMark := 1,
          filesPresent := true }).filesPresent = false) := by
  have h1 := cleanup_if_empty_spec
    { logEntries := [⟨1, ⟨"Assign", ["a"], ["v"]⟩⟩], ackMark := 0,
      appendMark := 1, filesPresent := true } rfl
  have h2 := cleanup_if_empty_spec
    { logEntries := [], ackMark := 1, appendMark := 1, filesPresent := true } rfl
  exact ⟨h1.2 (by decide), h2.1.mpr rfl⟩

/-- C6: For every Durable Queue state and every sequence number s, `ack s`
with s lower than the current ack-mark is a no-op that does not raise an
error and leaves the ack-mark unchanged; hence the ack-mark is
monotonically non-decreasing across any sequence of ack calls, including
duplicates. -/
theorem ack_lower_noop_and_monotone :
    (∀ (q : DiskQueue) (s : Nat), s < q.ackMark → q.ack s = q)
    ∧ (∀ (q : DiskQueue) (ss : List Nat),
        q.ackMark ≤ (ss.foldl DiskQueue.ack q).ackMark) := by
  constructor
  · intro q s hs
    simp [DiskQueue.ack, Nat.le_of_lt hs]
  · intro q ss
    induction ss generalizing q with
    | nil => exact Nat.le_refl _
    | cons s rest ih =>
      refine Nat.le_trans ?_ (ih (q.ack s))
      unfold DiskQueue.ack
      by_cases h : s ≤ q.ackMark
      · simp [h]
      · simp [h]
        exact Nat.le_of_not_le h

/-- Witness for C6: acking 3 after acking 5 is a no-op, and a duplicate
ack sequence never lowers the ack-mark. -/
theorem ack_lower_noop_and_monotone_witness :
    ((DiskQueue.empty.ack 5).ack 3 = DiskQueue.empty.ack 5)
    ∧ DiskQueue.empty.ackMark
        ≤ ([5, 3, 5].foldl DiskQueue.ack DiskQueue.empty).ackMark := by
  exact ⟨ack_lower_noop_and_monotone.1 (DiskQueue.empty.ack 5) 3 (by decide),
         ack_lower_noop_and_monotone.2 DiskQueue.empty [5, 3, 5]⟩

/-- Unfolding `run` on a cons cell. -/
theorem OperationProcessor.run_cons (p : OperationProcessor) (c : Command)
    (cs : List Command) :
    p.run (c :: cs)
      = (((p.step c).1.run cs).1, (p.step c).2 ++ ((p.step c).1.run cs).2) := rfl

/-- C3: When an offline operation processor is constructed for a
container, it writes a metadata record whose mode field is "offline" and
whose container id and container type equal those the processor was
constructed with. -/
theorem offline_processor_metadata (cid : String) (ct : ContainerType) :
    (OfflineOperationProcessor.init cid ct).metadataFile.record
      = some { containerId := cid, containerType := ct, mode := "offline" } := rfl

/-- C5: For every started offline operation processor, calling `stop()`
invokes no cleanup on the Durable Queue, the Operation Storage, or the
Metadata File: all enqueued entries and on-disk state remain durably
preserved after stop. -/
theorem stop_invokes_no_cleanup (p : OperationProcessor)
    (hm : p.mode = ProcMode.offline) (hs : p.procState = ProcState.started) :
    (Effect.cleanupQueue ∉ p.stop.2 ∧ Effect.cleanupStorage ∉ p.stop.2
       ∧ Effect.cleanupMetadata ∉ p.stop.2)
    ∧ (p.stop.1.queue = p.queue ∧ p.stop.1.storage = p.storage
       ∧ p.stop.1.metadataFile = p.metadataFile) := by
  simp [OperationProcessor.stop, hs]

/-- Witness for C5: a started offline processor holding one enqueued
operation keeps its queue, storage and metadata intact across `stop`. -/
theorem stop_invokes_no_cleanup_witness :
    (Effect.cleanupQueue ∉
        (((OfflineOperationProcessor.init "abc" ContainerType.run).run
            [Command.start, Command.enqueue (Operation.assign ["f"] "1")]).1).stop.2)
    ∧ ((((OfflineOperationProcessor.init "abc" ContainerType.run).run
            [Command.start, Command.enqueue (Operation.assign ["f"] "1")]).1).stop.1.queue
        = (((OfflineOperationProcessor.init "abc" ContainerType.run).run
            [Command.start, Command.enqueue (Operation.assign ["f"] "1")]).1).queue) := by
  have h := stop_invokes_no_cleanup
    (((OfflineOperationProcessor.init "abc" ContainerType.run).run
        [Command.start, Command.enqueue (Operation.assign ["f"] "1")]).1)
    (by rfl) (by rfl)
  exact ⟨h.1.1, h.2.1⟩

/-- C4: For every started operation processor, calling `close()` closes
the Metadata File handle and the Durable Queue handle (each exactly once),
and invokes their cleanup only if the queue and storage are fully drained;
closing twice is a no-op. -/
theorem close_spec (p : OperationProcessor) (hs : p.procState = ProcState.started) :
    (p.close.2.count Effect.closeQueueHandle = 1
       ∧ p.close.2.count Effect.closeMetadataHandle = 1
       ∧ p.close.1.metadataFile.handleOpen = false)
    ∧ ((Effect.cleanupQueue ∈ p.close.2 ∨ Effect.cleanupStorage ∈ p.close.2
          ∨ Effect.cleanupMetadata ∈ p.close.2)
        ↔ p.queue.ackMark = p.queue.appendMark)
    ∧ p.close.1.close = (p.close.1, []) := by
  have hns : ¬ p.procState = ProcState.closed := by simp [hs]
  by_cases hd : p.queue.ackMark = p.queue.appendMark
  · refine ⟨⟨?_, ?_, ?_⟩, ?_, ?_⟩ <;>
      simp [OperationProcessor.close, hns, hd, List.count_cons]
  · refine ⟨⟨?_, ?_, ?_⟩, ?_, ?_⟩ <;>
      simp [OperationProcessor.close, hns, hd, List.count_cons]

/-- Witness for C4: closing a started offline processor with one
unacknowledged entry emits each close effect once and no cleanup, and a
second close is a no-op. -/
theorem close_spec_witness :
    (let p := ((OfflineOperationProcessor.init "abc" ContainerType.run).run
        [Command.start, Command.enqueue (Operation.assign ["f"] "1")]).1
     (p.close.2.count Effect.closeQueueHandle = 1
        ∧ p.close.2.count Effect.closeMetadataHandle = 1)
     ∧ Effect.cleanupQueue ∉ p.close.2
     ∧ p.close.1.close = (p.close.1, [])) := by
  have h := close_spec
    (((OfflineOperationProcessor.init "abc" ContainerType.run).run
        [Command.start, Command.enqueue (Operation.assign ["f"] "1")]).1)
    (by rfl)
  refine ⟨⟨h.1.1, h.1.2.1⟩, ?_, h.2.2⟩
  intro hmem
  exact absurd (h.2.1.mp (Or.inl hmem)) (by decide)

/-- A step of an offline processor with no active sync job keeps it
offline with no sync job, and emits neither a backend submission nor a
sync-job start. -/
theorem step_offline_benign (p : OperationProcessor) (c : Command)
    (hm : p.mode = ProcMode.offline) (hj : p.syncJobActive = false) :
    ((p.step c).1.mode = ProcMode.offline ∧ (p.step c).1.syncJobActive = false)
    ∧ ∀ e ∈ (p.step c).2,
        (∀ cid rs, e ≠ Effect.backendSubmit cid rs) ∧ e ≠ Effect.startSyncJob := by
  cases c with
  | start =>
      by_cases hc : p.procState = ProcState.created <;>
        simp [OperationProcessor.step, OperationProcessor.start, hc, hm, hj]
  | enqueue op =>
      by_cases hc : p.procState = ProcState.started <;>
        simp [OperationProcessor.step, hc, hm, hj]
  | flush => simp [OperationProcessor.step, hm, hj]
  | wait => simp [OperationProcessor.step, hm, hj]
  | stop =>
      by_cases hc : p.procState = ProcState.started <;>
        simp [OperationProcessor.step, OperationProcessor.stop, hc, hm, hj]
  | close =>
      by_cases hc : p.procState = ProcState.closed <;>
      by_cases hd : p.queue.ackMark = p.queue.appendMark <;>
        simp [OperationProcessor.step, OperationProcessor.close, hc, hd, hm, hj]
  | tick => simp [OperationProcessor.step, hj, hm]

/-- Running any command sequence on an offline processor with no active
sync job invokes the backend client in no step and starts no sync job. -/
theorem run_offline_benign (cmds : List Command) :
    ∀ (p : OperationProcessor), p.mode = ProcMode.offline →
      p.syncJobActive = false →
      ((p.run cmds).1.mode = ProcMode.offline
         ∧ (p.run cmds).1.syncJobActive = false)
      ∧ ∀ e ∈ (p.run cmds).2,
          (∀ cid rs, e ≠ Effect.backendSubmit cid rs) ∧ e ≠ Effect.startSyncJob := by
  induction cmds with
  | nil =>
      intro p hm hj
      exact ⟨⟨hm, hj⟩, by simp [OperationProcessor.run]⟩
  | cons c cs ih =>
      intro p hm hj
      have hstep := step_offline_benign p c hm hj
      have hrest := ih (p.step c).1 hstep.1.1 hstep.1.2
      rw [OperationProcessor.run_cons]
      refine ⟨hrest.1, ?_⟩
      intro e he
      rcases List.mem_append.mp he with h1 | h2
      · exact hstep.2 e h1
      · exact hrest.2 e h2

/-- Enqueueing a list of operations on a started processor appends the
serialized operations with consecutive sequence numbers, leaves the
ack-mark alone, and advances the append-mark by the number of
operations. -/
theorem run_enqueues (ops : List Operation) :
    ∀ (p : OperationProcessor), p.procState = ProcState.started →
      (p.run (ops.map Command.enqueue)).1.procState = ProcState.started
      ∧ (p.run (ops.map Command.enqueue)).1.queue.logEntries
          = p.queue.logEntries ++ numberFrom p.queue.appendMark ops
      ∧ (p.run (ops.map Command.enqueue)).1.queue.ackMark = p.queue.ackMark
      ∧ (p.run (ops.map Command.enqueue)).1.queue.appendMark
          = p.queue.appendMark + ops.length := by
  induction ops with
  | nil =>
      intro p hs
      simp [OperationProcessor.run, numberFrom, hs]
  | cons op rest ih =>
      intro p hs
      rw [List.map_cons, OperationProcessor.run_cons]
      have hstep : p.step (Command.enqueue op)
          = ({ p with queue := (p.queue.put op).1 }, []) := by
        simp [OperationProcessor.step, hs]
      rw [hstep]
      have ih' := ih { p with queue := (p.queue.put op).1 } hs
      refine ⟨ih'.1, ?_, ?_, ?_⟩
      · rw [ih'.2.1]
        simp [DiskQueue.put, numberFrom, List.append_assoc]
      · exact ih'.2.2.1
      · rw [ih'.2.2.2]
        simp [DiskQueue.put]
        omega

/-- All sequence numbers produced by `numberFrom n` exceed any bound at
most `n`, so none of the produced entries is filtered out as already
acknowledged. -/
theorem numberFrom_filter (ops : List Operation) :
    ∀ (a n : Nat), a ≤ n →
      (numberFrom n ops).filter (fun e => a < e.seq) = numberFrom n ops := by
  induction ops with
  | nil => intro a n _; rfl
  | cons op rest ih =>
      intro a n h
      have hlt : a < n + 1 := Nat.lt_succ_of_le h
      simp [numberFrom, List.filter_cons, hlt, ih a (n + 1) (Nat.le_succ_of_le h)]

/-- The serialized payload of the entries produced by `numberFrom`. -/
theorem numberFrom_map_record (ops : List Operation) :
    ∀ n, (numberFrom n ops).map QueueEntry.record = ops.map Operation.toRecord := by
  induction ops with
  | nil => intro n; rfl
  | cons op rest ih => intro n; simp [numberFrom, ih]

/-- Reopening a queue of unacknowledged entries under online mode and
running one sync tick submits all the serialized operations to the
backend in original order and acknowledges them all. -/
theorem online_reopen_drains (cid : String) (ct : ContainerType)
    (ops : List Operation) (q : DiskQueue)
    (hlog : q.logEntries = numberFrom 0 ops) (hack : q.ackMark = 0)
    (happ : q.appendMark = ops.length) :
    ((onlineReopen cid ct q).run [Command.start, Command.tick]).2
      = Effect.startSyncJob ::
          (if ops = [] then []
           else [Effect.backendSubmit cid (ops.map Operation.toRecord)])
    ∧ ((onlineReopen cid ct q).run [Command.start, Command.tick]).1.queue.ackMark
      = ((onlineReopen cid ct q).run
          [Command.start, Command.tick]).1.queue.appendMark := by
  have hpend : q.pendingEntries = numberFrom 0 ops := by
    rw [DiskQueue.pendingEntries, hlog, hack]
    exact numberFrom_filter ops 0 0 (Nat.le_refl 0)
  cases ops with
  | nil =>
      have hpe : q.pendingEntries = [] := by rw [hpend]; rfl
      simp [OperationProcessor.run, OperationProcessor.step,
        OperationProcessor.start, onlineReopen, hpe, hack, happ]
  | cons op rest =>
      have hpe : q.pendingEntries
          = ⟨1, op.toRecord⟩ :: numberFrom 1 rest := by rw [hpend]; rfl
      have hlen : ¬ q.appendMark ≤ q.ackMark := by
        rw [hack, happ]; simp
      constructor
      · simp [OperationProcessor.run, OperationProcessor.step,
          OperationProcessor.start, onlineReopen, hpe]
        exact numberFrom_map_record rest 1
      · simp [OperationProcessor.run, OperationProcessor.step,
          OperationProcessor.start, onlineReopen, hpe, DiskQueue.ack, hlen]

/-- C1: For every offline-mode operation processor and every sequence of
enqueued operations, the processor never invokes the backend client and
never starts a Background Sync Job; operations only accumulate in the
on-disk Durable Queue until a later, separate online-mode open drains
them (in original order). -/
theorem offline_processor_never_syncs (cid : String) (ct : ContainerType)
    (cmds : List Command) (ops : List Operation)
    (pAfter : OperationProcessor)
    (hpAfter : pAfter = ((OfflineOperationProcessor.init cid ct).run
        (Command.start :: ops.map Command.enqueue)).1)
    (reopened : OperationProcessor × List Effect)
    (hre : reopened = (onlineReopen cid ct pAfter.queue).run
        [Command.start, Command.tick]) :
    (∀ e ∈ ((OfflineOperationProcessor.init cid ct).run cmds).2,
        (∀ c rs, e ≠ Effect.backendSubmit c rs) ∧ e ≠ Effect.startSyncJob)
    ∧ pAfter.queue.pendingEntries.map QueueEntry.record
        = ops.map Operation.toRecord
    ∧ reopened.2
        = Effect.startSyncJob ::
            (if ops = [] then []
             else [Effect.backendSubmit cid (ops.map Operation.toRecord)])
    ∧ reopened.1.queue.ackMark = reopened.1.queue.appendMark := by
  have hq : pAfter.queue.logEntries = numberFrom 0 ops
      ∧ pAfter.queue.ackMark = 0 ∧ pAfter.queue.appendMark = ops.length := by
    have hstart : (OfflineOperationProcessor.init cid ct).step Command.start
        = ({ OfflineOperationProcessor.init cid ct with
              procState := ProcState.started }, []) := by
      simp [OperationProcessor.step, OperationProcessor.start,
        OfflineOperationProcessor.init]
    have henq := run_enqueues ops
      { OfflineOperationProcessor.init cid ct with procState := ProcState.started }
      rfl
    rw [hpAfter, OperationProcessor.run_cons, hstart]
    refine ⟨?_, ?_, ?_⟩
    · rw [henq.2.1]; rfl
    · exact henq.2.2.1
    · rw [henq.2.2.2]
      simp [OfflineOperationProcessor.init, DiskQueue.empty]
  have hdrain := online_reopen_drains cid ct ops pAfter.queue hq.1 hq.2.1 hq.2.2
  refine ⟨?_, ?_, ?_, ?_⟩
  · exact (run_offline_benign cmds (OfflineOperationProcessor.init cid ct)
      rfl rfl).2
  · rw [DiskQueue.pendingEntries, hq.1, hq.2.1,
      numberFrom_filter ops 0 0 (Nat.le_refl 0), numberFrom_map_record]
  · rw [hre]; exact hdrain.1
  · rw [hre]; exact hdrain.2

/-- Witness for C1: with two concrete enqueued operations and a command
sequence exercising the whole offline API, no sync job starts, and the
online reopen submits exactly the two serialized operations in order. -/
theorem offline_processor_never_syncs_witness :
    (Effect.startSyncJob ∉
        ((OfflineOperationProcessor.init "abc" ContainerType.run).run
          [Command.start, Command.enqueue (Operation.assign ["x"] "1"),
           Command.flush, Command.wait, Command.stop, Command.close]).2)
    ∧ (((OfflineOperationProcessor.init "abc" ContainerType.run).run
          (Command.start ::
            [Operation.assign ["x"] "1",
             Operation.addStrings ["t"] ["u", "v"]].map Command.enqueue)).1.queue.pendingEntries.map
          QueueEntry.record
        = [Operation.assign ["x"] "1",
           Operation.addStrings ["t"] ["u", "v"]].map Operation.toRecord)
    ∧ ((onlineReopen "abc" ContainerType.run
          (((OfflineOperationProcessor.init "abc" ContainerType.run).run
            (Command.start ::
              [Operation.assign ["x"] "1",
               Operation.addStrings ["t"] ["u", "v"]].map Command.enqueue)).1.queue)).run
          [Command.start, Command.tick]).2
        = [Effect.startSyncJob,
           Effect.backendSubmit "abc"
             [Operation.toRecord (Operation.assign ["x"] "1"),
              Operation.toRecord (Operation.addStrings ["t"] ["u", "v"])]] := by
  have h := offline_processor_never_syncs "abc" ContainerType.run
    [Command.start, Command.enqueue (Operation.assign ["x"] "1"),
     Command.flush, Command.wait, Command.stop, Command.close]
    [Operation.assign ["x"] "1", Operation.addStrings ["t"] ["u", "v"]]
    (((OfflineOperationProcessor.init "abc" ContainerType.run).run
        (Command.start ::
          [Operation.assign ["x"] "1",
           Operation.addStrings ["t"] ["u", "v"]].map Command.enqueue)).1)
    rfl
    ((onlineReopen "abc" ContainerType.run
        (((OfflineOperationProcessor.init "abc" ContainerType.run).run
          (Command.start ::
            [Operation.assign ["x"] "1",
             Operation.addStrings ["t"] ["u", "v"]].map Command.enqueue)).1.queue)).run
        [Command.start, Command.tick])
    rfl
  refine ⟨?_, h.2.1, ?_⟩
  · intro hmem
    exact (h.1 Effect.startSyncJob hmem).2 rfl
  · have h3 := h.2.2.1
    simpa using h3

/-- C8: For every filter argument of `Project.fetch_runs_table`, the
normalization `_as_list` maps `None` to `None`, a single string s to the
one-element list `[s]`, and an iterable of strings to itself unchanged; a
value that is neither `None`, a string, nor an iterable of strings raises
a type-verification error. -/
theorem as_list_spec (name : String) (s : String) (xs : List PyValue)
    (v : PyValue) :
    _as_list name PyValue.vNone = Except.ok Option.none
    ∧ _as_list name (PyValue.vStr s)
        = Except.ok (some (PyValue.vIter [PyValue.vStr s]))
    ∧ (xs.all PyValue.isStr = true →
        _as_list name (PyValue.vIter xs) = Except.ok (some (PyValue.vIter xs)))
    ∧ (v.isNoneVal = false → v.isStr = false → v.isIterOfStr = false →
        ∃ e, _as_list name v = Except.error e) := by
  refine ⟨rfl, rfl, ?_, ?_⟩
  · intro h
    simp [_as_list, verify_type_none_str_iterable, verify_collection_type_str,
      PyValue.isNoneVal, PyValue.isStr, PyValue.isIterable, h]
  · intro h1 h2 h3
    cases v with
    | vNone => simp [PyValue.isNoneVal] at h1
    | vStr s2 => simp [PyValue.isStr] at h2
    | vInt n => exact ⟨"TypeError: " ++ name, rfl⟩
    | vIter ys =>
        refine ⟨"TypeError: elements of " ++ name, ?_⟩
        have h3' : ys.all PyValue.isStr = false := h3
        simp only [_as_list, verify_type_none_str_iterable,
          verify_collection_type_str, PyValue.isNoneVal, PyValue.isStr,
          PyValue.isIterable, h3', Bool.false_or, Bool.or_false, Bool.or_true,
          if_true, Bool.false_eq_true, if_false]

/-- Witness for C8: a list of two strings passes through unchanged, and
an integer argument raises the type-verification error. -/
theorem as_list_spec_witness :
    _as_list "id" (PyValue.vIter [PyValue.vStr "a", PyValue.vStr "b"])
      = Except.ok (some (PyValue.vIter [PyValue.vStr "a", PyValue.vStr "b"]))
    ∧ ∃ e, _as_list "id" (PyValue.vInt 3) = Except.error e := by
  have h := as_list_spec "id" "x" [PyValue.vStr "a", PyValue.vStr "b"]
    (PyValue.vInt 3)
  exact ⟨h.2.2.1 (by decide), h.2.2.2 (by decide) (by decide) (by decide)⟩

/-- C9: For every project name and every non-empty list of object ids,
`trash_objects` and `delete_objects_from_trash` each issue exactly one
backend call for the whole list, passing the project identifier and each
object id prefixed with `"<project>/"` in the original input order. -/
theorem trash_and_delete_single_call (project : String) (ids : List String)
    (h : ids ≠ []) :
    ((trash_objects project ids).length = 1
      ∧ (trash_objects project ids).head?
          = some { endpoint := "trashExperiments"
                   projectIdentifier := project
                   experimentIdentifiers :=
                     ids.map (fun i => project ++ "/" ++ i) })
    ∧ ((delete_objects_from_trash project ids).length = 1
      ∧ (delete_objects_from_trash project ids).head?
          = some { endpoint := "deleteExperiments"
                   projectIdentifier := project
                   experimentIdentifiers :=
                     ids.map (fun i => project ++ "/" ++ i) }) :=
  ⟨⟨rfl, rfl⟩, rfl, rfl⟩

/-- Witness for C9: the concrete call of the unit tests - project
"organization/project" and ids [RUN-1, MOD, MOD-1] - yields one call with
the prefixed identifiers in order. -/
theorem trash_and_delete_single_call_witness :
    ((trash_objects "organization/project" ["RUN-1", "MOD", "MOD-1"]).length = 1
      ∧ (trash_objects "organization/project" ["RUN-1", "MOD", "MOD-1"]).head?
          = some { endpoint := "trashExperiments"
                   projectIdentifier := "organization/project"
                   experimentIdentifiers :=
                     ["organization/project/RUN-1", "organization/project/MOD",
                      "organization/project/MOD-1"] })
    ∧ (delete_objects_from_trash "organization/project"
        ["RUN-1", "MOD", "MOD-1"]).length = 1 := by
  have h := trash_and_delete_single_call "organization/project"
    ["RUN-1", "MOD", "MOD-1"] (by decide)
  refine ⟨⟨h.1.1, ?_⟩, h.2.1⟩
  rw [h.1.2]
  rfl

end Neptune
